import Mathlib

/-!
Shallow embedding of `DX12/source/main.cpp` (a single-file DirectX 12
bring-up program) and proofs about it.

Conventions of the embedding:
* `HRESULT` values are integers; a result is a success exactly when it is
  non-negative (`SUCCEEDED(hr)` in COM is `hr >= 0`).
* Functions whose C++ counterparts can throw (via `ThrowIfFailed`) or abort
  are embedded as `Except HRESULT _`; `.error hr` means the function did not
  return normally.
* Results of external driver calls are inputs of the embedded functions
  (oracle style): each call site of the C++ code corresponds to one
  explicitly passed `HRESULT` (and, where the call writes through an out
  parameter, one explicitly passed payload value).
* Machine integers are modelled as `Nat` with explicit reduction modulo
  `2 ^ 64` (resp. `2 ^ 32`) exactly where the C++ code can overflow.
* The release build is modelled: blocks guarded by `#if defined(_DEBUG)`
  are compiled out.
-/

namespace DX12

/-- COM result code, an `int32` in C++; negative values are failures. -/
abbrev HRESULT := Int

/-- `SUCCEEDED(hr)` from the Windows headers. -/
def SUCCEEDED (hr : HRESULT) : Bool := 0 ≤ hr

/-- `FAILED(hr)` from the Windows headers. -/
def FAILED (hr : HRESULT) : Bool := hr < 0

/-- Modelled from the spec: `ThrowIfFailed` is declared in
`DX12/include/helpers.h`, which is not among the provided sources; the spec
says the program's only error handling is to "abort the process if a driver
call fails", so a failing `HRESULT` raises an error that is never caught and
a succeeding one is ignored. -/
def ThrowIfFailed (hr : HRESULT) : Except HRESULT Unit :=
  if hr < 0 then .error hr else .ok ()

/-- `DXGI_ERROR_NOT_FOUND` (`0x887A0002` reinterpreted as a signed 32-bit
integer). -/
def DXGI_ERROR_NOT_FOUND : HRESULT := -2005270526

/-- `DXGI_SWAP_CHAIN_FLAG_ALLOW_TEARING` (`0x800`). -/
def DXGI_SWAP_CHAIN_FLAG_ALLOW_TEARING : Nat := 2048

/-- `DXGI_FORMAT_R8G8B8A8_UNORM`. -/
def DXGI_FORMAT_R8G8B8A8_UNORM : Nat := 28

/-- `DXGI_USAGE_RENDER_TARGET_OUTPUT` (`0x20`). -/
def DXGI_USAGE_RENDER_TARGET_OUTPUT : Nat := 32

/-- `DXGI_SCALING_STRETCH`. -/
def DXGI_SCALING_STRETCH : Nat := 0

/-- `DXGI_SWAP_EFFECT_FLIP_DISCARD`. -/
def DXGI_SWAP_EFFECT_FLIP_DISCARD : Nat := 4

/-- `DXGI_ALPHA_MODE_UNSPECIFIED`. -/
def DXGI_ALPHA_MODE_UNSPECIFIED : Nat := 0

/-- `D3D12_COMMAND_QUEUE_PRIORITY_NORMAL`. -/
def D3D12_COMMAND_QUEUE_PRIORITY_NORMAL : Nat := 0

/-- `D3D12_COMMAND_QUEUE_FLAG_NONE`. -/
def D3D12_COMMAND_QUEUE_FLAG_NONE : Nat := 0

/-- `D3D12_DESCRIPTOR_HEAP_FLAG_NONE`. -/
def D3D12_DESCRIPTOR_HEAP_FLAG_NONE : Nat := 0

/-- `D3D12_FENCE_FLAG_NONE`. -/
def D3D12_FENCE_FLAG_NONE : Nat := 0

/-- `const uint8_t g_numFrames = 3;` — number of swap-chain back buffers
(main.cpp line 42). -/
def g_numFrames : Nat := 3

/-- One kind of driver object per handle the program can create. -/
inductive DriverObjectKind where
  | device
  | commandQueue
  | swapChain
  | descriptorHeap
  | renderTargetView
  | commandAllocator
  | commandList
  | fence
  | fenceEvent
deriving DecidableEq, BEq, Repr

/-- The mutable process-global configuration touched by
`ParseCommandLineArguments` (main.cpp lines 45-48): `g_useWarp`,
`g_clientWidth`, `g_clientHeight`. Widths are `uint32_t`. -/
structure Config where
  clientWidth : Nat
  clientHeight : Nat
  useWarp : Bool
deriving DecidableEq, Repr

/-- Initial values of the configuration globals (main.cpp lines 45-48). -/
def initialConfig : Config :=
  { clientWidth := 1280, clientHeight := 1080, useWarp := false }

/-- The process-global variables of main.cpp (lines 42-78), with their
static-initialization values.  Driver handles are `Option Unit` (`none` is a
null `ComPtr`/`HANDLE`). -/
structure Globals where
  numFrames : Nat
  useWarp : Bool
  clientWidth : Nat
  clientHeight : Nat
  isInitialized : Bool
  hWnd : Option Unit
  device : Option Unit
  commandQueue : Option Unit
  swapChain : Option Unit
  backBuffers : List (Option Unit)
  commandList : Option Unit
  commandAllocators : List (Option Unit)
  rtvDescriptorHeap : Option Unit
  rtvDescriptorSize : Nat
  currBackBufferIndex : Nat
  fence : Option Unit
  fenceValue : Nat
  frameFenceValues : List Nat
  fenceEvent : Option Unit
  vSync : Bool
  tearingSupport : Bool
  fullscreen : Bool
deriving DecidableEq, Repr

/-- The globals as they stand after static initialization and before `main`
runs (main.cpp lines 42-78; uninitialized namespace-scope scalars are
zero-initialized in C++). -/
def initGlobals : Globals :=
  { numFrames := g_numFrames
    useWarp := false
    clientWidth := 1280
    clientHeight := 1080
    isInitialized := false
    hWnd := none
    device := none
    commandQueue := none
    swapChain := none
    backBuffers := [none, none, none]
    commandList := none
    commandAllocators := [none, none, none]
    rtvDescriptorHeap := none
    rtvDescriptorSize := 0
    currBackBufferIndex := 0
    fence := none
    fenceValue := 0
    frameFenceValues := [0, 0, 0]
    fenceEvent := none
    vSync := true
    tearingSupport := false
    fullscreen := false }

/-- `int main() { }` (main.cpp lines 614-617): the body is empty, so the
global state is unchanged and the implicit return value is `0`. -/
def main (s : Globals) : Globals × Int := (s, 0)

/-- The sequence of driver-object creations performed by running the
program.  `main` has an empty body and the only render routine in the file
(lines 585-612) is entirely commented out, so the program performs none:
the trace is the empty list. -/
def mainOps : List DriverObjectKind := []

/-! ## ParseCommandLineArguments (main.cpp lines 83-106)

The C++ loop walks `argv` with an index `i` that is additionally
incremented inside an iteration by `argv[++i]` whenever a width or height
flag matched; the three `if` statements of one iteration run in sequence on
the *current* `argv[i]`.  The embedding makes every `argv` access explicit
via `List.getElem?`; a `none` result marks a read of `argv` at an index
`≥ argc`, i.e. an out-of-bounds access, and aborts the model. -/

/-- `wcscmp(argv[i], L"-w") == 0 || wcscmp(argv[i], L"--width") == 0`. -/
def widthFlag (a : String) : Bool := a = "-w" || a = "--width"

/-- `wcscmp(argv[i], L"-h") == 0 || wcscmp(argv[i], L"--height") == 0`. -/
def heightFlag (a : String) : Bool := a = "-h" || a = "--height"

/-- `wcscmp(argv[i], L"-warp") == 0 || wcscmp(argv[i], L"--warp") == 0`. -/
def warpFlag (a : String) : Bool := a = "-warp" || a = "--warp"

/-- A token that none of the three flag tests of the loop body matches. -/
def noFlag (a : String) : Bool := !widthFlag a && !heightFlag a && !warpFlag a

/-- Value of a run of decimal digits, stopping at the first non-digit. -/
def digitsVal : List Char → Nat → Nat
  | [], acc => acc
  | c :: cs, acc =>
    if c.isDigit then digitsVal cs (acc * 10 + (c.toNat - 48)) else acc

/-- Modelled from the C runtime: `wcstol(str, nullptr, 10)` skips leading
whitespace, accepts an optional sign and a run of decimal digits, and clamps
the result to the range of `long` (32 bits on Windows). -/
def wcstol10 (s : String) : Int :=
  let cs := s.data.dropWhile Char.isWhitespace
  let v : Int :=
    match cs with
    | c :: rest =>
      if c = '-' then -(digitsVal rest 0 : Int)
      else if c = '+' then (digitsVal rest 0 : Int)
      else (digitsVal cs 0 : Int)
    | [] => 0
  max (-(2 ^ 31)) (min (2 ^ 31 - 1) v)

/-- Conversion of the `long` returned by `wcstol` to the `uint32_t` globals
`g_clientWidth` / `g_clientHeight` (reduction modulo `2 ^ 32`). -/
def uint32OfLong (v : Int) : Nat := (v % 2 ^ 32).toNat

/-- One iteration of the parsing loop body (main.cpp lines 88-102), started
at index `i` (with `i < args.length`).  Returns the extra number `d` of
tokens consumed inside the iteration (the loop resumes at `i + d + 1`) and
the updated configuration, or `none` on an out-of-bounds `argv` read. -/
def parseIter (args : List String) (i : Nat) (cfg : Config) :
    Option (Nat × Config) :=
  match args[i]? with
  | none => none
  | some a0 =>
    let step1 : Option (Nat × Config) :=
      if widthFlag a0 then
        match args[i + 1]? with
        | none => none
        | some v => some (1, { cfg with clientWidth := uint32OfLong (wcstol10 v) })
      else some (0, cfg)
    match step1 with
    | none => none
    | some (d1, cfg1) =>
      match args[i + d1]? with
      | none => none
      | some a1 =>
        let step2 : Option (Nat × Config) :=
          if heightFlag a1 then
            match args[i + d1 + 1]? with
            | none => none
            | some v => some (d1 + 1, { cfg1 with clientHeight := uint32OfLong (wcstol10 v) })
          else some (d1, cfg1)
        match step2 with
        | none => none
        | some (d2, cfg2) =>
          match args[i + d2]? with
          | none => none
          | some a2 =>
            some (d2, if warpFlag a2 then { cfg2 with useWarp := true } else cfg2)

/-- The `for` loop of `ParseCommandLineArguments`, with explicit fuel for
structural recursion.  Since every iteration advances the index by at least
one, `args.length` fuel always suffices for the loop to reach
`i ≥ args.length`. -/
def parseLoop (args : List String) : Nat → Nat → Config → Option Config
  | 0, _, cfg => some cfg
  | fuel + 1, i, cfg =>
    if i < args.length then
      match parseIter args i cfg with
      | none => none
      | some (d, cfg') => parseLoop args fuel (i + d + 1) cfg'
    else some cfg

/-- `ParseCommandLineArguments` (main.cpp lines 83-106) applied to the
`argv` array produced by `CommandLineToArgvW` (the program name is
`argv[0]` and is scanned like any other token).  `none` means the loop read
`argv` out of bounds; `some cfg` is the configuration on normal return. -/
def ParseCommandLineArguments (args : List String) : Option Config :=
  parseLoop args args.length 0 initialConfig

/-! ## GetAdapter (main.cpp lines 185-235) -/

/-- The two fields of `DXGI_ADAPTER_DESC1` the source reads: whether
`Flags & DXGI_ADAPTER_FLAG_SOFTWARE` is set, and `DedicatedVideoMemory`. -/
structure AdapterDesc where
  softwareFlag : Bool
  dedicatedVideoMemory : Nat
deriving DecidableEq, Repr

/-- Driver results for one index of the `EnumAdapters1` loop:
`enumHr` is the result of `EnumAdapters1(i, ...)`; `getDescHr` the result
of `GetDesc1` (the source discards it); `desc` the description written by
`GetDesc1`; `probeHr` the result of the null-device `D3D12CreateDevice`
probe; `asHr` the result of `dxgiAdapter1.As(&dxgiAdapter4)`. -/
structure AdapterIter where
  enumHr : HRESULT
  getDescHr : HRESULT
  desc : AdapterDesc
  probeHr : HRESULT
  asHr : HRESULT
deriving DecidableEq, Repr

/-- What `GetAdapter` hands back: the warp adapter, the hardware adapter
selected by the loop (by index), or a null pointer when no candidate
qualified. -/
inductive AdapterResult where
  | warp
  | hardware (index : Nat)
  | null
deriving DecidableEq, Repr

/-- The hardware-adapter enumeration loop of `GetAdapter` (main.cpp lines
213-231).  The loop runs while `EnumAdapters1` does not return
`DXGI_ERROR_NOT_FOUND`; the result of `GetDesc1` is discarded by the
source; a candidate must have the software flag clear, a succeeding
null-device probe, and strictly more dedicated video memory than the
current maximum; `dxgiAdapter1.As(&dxgiAdapter4)` is the only call wrapped
in `ThrowIfFailed`.  An exhausted oracle list behaves like
`DXGI_ERROR_NOT_FOUND`. -/
def GetAdapterHW : List AdapterIter → Nat → Nat → Option Nat →
    Except HRESULT AdapterResult
  | [], _, _, best =>
    .ok (match best with | some j => .hardware j | none => .null)
  | a :: rest, i, maxMem, best =>
    if a.enumHr = DXGI_ERROR_NOT_FOUND then
      .ok (match best with | some j => .hardware j | none => .null)
    else
      if a.desc.softwareFlag = false ∧ 0 ≤ a.probeHr ∧
          maxMem < a.desc.dedicatedVideoMemory then
        match ThrowIfFailed a.asHr with
        | .error e => .error e
        | .ok _ => GetAdapterHW rest (i + 1) a.desc.dedicatedVideoMemory (some i)
      else GetAdapterHW rest (i + 1) maxMem best

/-- `GetAdapter(useWarp)` (main.cpp lines 185-235).  `createFactoryHr` is
the result of `CreateDXGIFactory2`; on the warp path `enumWarpHr` and
`warpAsHr` are the results of `EnumWarpAdapter` and of the `As` cast; on the
hardware path `adapters` supplies the per-index driver results. -/
def GetAdapter (useWarp : Bool) (createFactoryHr enumWarpHr warpAsHr : HRESULT)
    (adapters : List AdapterIter) : Except HRESULT AdapterResult :=
  match ThrowIfFailed createFactoryHr with
  | .error e => .error e
  | .ok _ =>
    if useWarp then
      match ThrowIfFailed enumWarpHr with
      | .error e => .error e
      | .ok _ =>
        match ThrowIfFailed warpAsHr with
        | .error e => .error e
        | .ok _ => .ok .warp
    else
      GetAdapterHW adapters 0 0 none

/-! ## CreateDevice, CreateCommandQueue (main.cpp lines 243-320) -/

/-- `CreateDevice(adapter)` (main.cpp lines 243-293), release build: the
`_DEBUG` info-queue block is compiled out, leaving the single
`ThrowIfFailed(D3D12CreateDevice(...))`. -/
def CreateDevice (createDeviceHr : HRESULT) : Except HRESULT Unit :=
  match ThrowIfFailed createDeviceHr with
  | .error e => .error e
  | .ok _ => .ok ()

/-- The `D3D12_COMMAND_QUEUE_DESC` fields set at main.cpp lines 311-315. -/
structure CommandQueueDesc where
  type : Nat
  priority : Nat
  flags : Nat
  nodeMask : Nat
deriving DecidableEq, Repr

/-- `CreateCommandQueue(device, type)` (main.cpp lines 307-320): fills the
descriptor, wraps the single driver call in `ThrowIfFailed`, and returns
the created queue (here represented by the descriptor it was created
from). -/
def CreateCommandQueue (type : Nat) (createQueueHr : HRESULT) :
    Except HRESULT CommandQueueDesc :=
  let desc : CommandQueueDesc :=
    { type := type
      priority := D3D12_COMMAND_QUEUE_PRIORITY_NORMAL
      flags := D3D12_COMMAND_QUEUE_FLAG_NONE
      nodeMask := 0 }
  match ThrowIfFailed createQueueHr with
  | .error e => .error e
  | .ok _ => .ok desc

/-! ## CheckTearingSupport, CreateSwapChain (main.cpp lines 325-405) -/

/-- Driver results consumed by `CheckTearingSupport`:
`createFactory1Hr` from `CreateDXGIFactory1`, `asFactory5Hr` from
`factory4.As(&factory5)`, `checkFeatureHr` from
`CheckFeatureSupport(DXGI_FEATURE_PRESENT_ALLOW_TEARING, ...)`, and
`allowTearingValue` the `BOOL` that call writes when it runs. -/
structure TearingInputs where
  createFactory1Hr : HRESULT
  asFactory5Hr : HRESULT
  checkFeatureHr : HRESULT
  allowTearingValue : Bool
deriving DecidableEq, Repr

/-- `CheckTearingSupport()` (main.cpp lines 325-350): `allowTearing` starts
`FALSE`, is overwritten by a succeeding `CheckFeatureSupport` and reset to
`FALSE` when that call fails; every failing step leaves it `FALSE`; the
function returns `allowTearing == TRUE` and never propagates an error. -/
def CheckTearingSupport (t : TearingInputs) : Bool :=
  if 0 ≤ t.createFactory1Hr then
    if 0 ≤ t.asFactory5Hr then
      if t.checkFeatureHr < 0 then false
      else t.allowTearingValue
    else false
  else false

/-- The `DXGI_SWAP_CHAIN_DESC1` fields set at main.cpp lines 374-385. -/
structure SwapChainDesc1 where
  width : Nat
  height : Nat
  format : Nat
  stereo : Bool
  sampleCount : Nat
  sampleQuality : Nat
  bufferUsage : Nat
  bufferCount : Nat
  scaling : Nat
  swapEffect : Nat
  alphaMode : Nat
  flags : Nat
deriving DecidableEq, Repr

/-- The swap-chain descriptor built by `CreateSwapChain` (main.cpp lines
374-385); line 385 sets the flags to `DXGI_SWAP_CHAIN_FLAG_ALLOW_TEARING`
exactly when `CheckTearingSupport()` returns `true`. -/
def swapChainDescFor (width height bufferCount : Nat) (t : TearingInputs) :
    SwapChainDesc1 :=
  { width := width
    height := height
    format := DXGI_FORMAT_R8G8B8A8_UNORM
    stereo := false
    sampleCount := 1
    sampleQuality := 0
    bufferUsage := DXGI_USAGE_RENDER_TARGET_OUTPUT
    bufferCount := bufferCount
    scaling := DXGI_SCALING_STRETCH
    swapEffect := DXGI_SWAP_EFFECT_FLIP_DISCARD
    alphaMode := DXGI_ALPHA_MODE_UNSPECIFIED
    flags := if CheckTearingSupport t then DXGI_SWAP_CHAIN_FLAG_ALLOW_TEARING else 0 }

/-- `CreateSwapChain(hWnd, commandQueue, width, height, bufferCount)`
(main.cpp lines 359-405).  The four `ThrowIfFailed`-wrapped driver calls
are, in order: `CreateDXGIFactory2`, `CreateSwapChainForHwnd`,
`MakeWindowAssociation`, and `swapChain1.As(&dxgiSwapChain4)`.  Returns the
swap chain (represented by the descriptor it was created from). -/
def CreateSwapChain (width height bufferCount : Nat) (t : TearingInputs)
    (createFactoryHr createForHwndHr makeAssocHr asHr : HRESULT) :
    Except HRESULT SwapChainDesc1 :=
  match ThrowIfFailed createFactoryHr with
  | .error e => .error e
  | .ok _ =>
    let desc := swapChainDescFor width height bufferCount t
    match ThrowIfFailed createForHwndHr with
    | .error e => .error e
    | .ok _ =>
      match ThrowIfFailed makeAssocHr with
      | .error e => .error e
      | .ok _ =>
        match ThrowIfFailed asHr with
        | .error e => .error e
        | .ok _ => .ok desc

/-! ## CreateDescriptorHeap, UpdateRenderTargetViews (main.cpp lines 408-455) -/

/-- The `D3D12_DESCRIPTOR_HEAP_DESC` fields set at main.cpp lines 417-421. -/
structure DescriptorHeapDesc where
  numDescriptors : Nat
  type : Nat
  flags : Nat
  nodeMask : Nat
deriving DecidableEq, Repr

/-- `CreateDescriptorHeap(device, type, numDescriptors, flags, nodeMask)`
(main.cpp lines 408-427): fills the descriptor and wraps the single driver
call in `ThrowIfFailed`. -/
def CreateDescriptorHeap (type numDescriptors flags nodeMask : Nat)
    (createHeapHr : HRESULT) : Except HRESULT DescriptorHeapDesc :=
  let desc : DescriptorHeapDesc :=
    { numDescriptors := numDescriptors
      type := type
      flags := flags
      nodeMask := nodeMask }
  match ThrowIfFailed createHeapHr with
  | .error e => .error e
  | .ok _ => .ok desc

/-- One `CreateRenderTargetView` call recorded by the embedding: which back
buffer it viewed and at which CPU descriptor address. -/
structure RTVCreation where
  bufferIndex : Nat
  descriptorPtr : Nat
deriving DecidableEq, Repr

/-- The loop of `UpdateRenderTargetViews` (main.cpp lines 439-454):
iteration `i` wraps `swapChain->GetBuffer(i, ...)` in `ThrowIfFailed`,
creates one render-target view at the current handle, and advances the
handle by `rtvDescriptorSize` (`CD3DX12_CPU_DESCRIPTOR_HANDLE::Offset`
adds the raw byte offset). -/
def updateRTVLoop (descriptorSize : Nat) (getBufferHr : Nat → HRESULT) :
    Nat → Nat → Nat → Except HRESULT (List RTVCreation)
  | 0, _, _ => .ok []
  | n + 1, i, handle =>
    match ThrowIfFailed (getBufferHr i) with
    | .error e => .error e
    | .ok _ =>
      match updateRTVLoop descriptorSize getBufferHr n (i + 1) (handle + descriptorSize) with
      | .error e => .error e
      | .ok rest => .ok (⟨i, handle⟩ :: rest)

/-- `UpdateRenderTargetViews(device, swapChain, descriptorHeap)` (main.cpp
lines 429-455): `descriptorSize` is the RTV handle increment reported by
the device, `heapStart` the heap's CPU start address, `getBufferHr i` the
result of `GetBuffer(i, ...)`.  Returns the list of render-target-view
creations the function performed. -/
def UpdateRenderTargetViews (descriptorSize heapStart : Nat)
    (getBufferHr : Nat → HRESULT) : Except HRESULT (List RTVCreation) :=
  updateRTVLoop descriptorSize getBufferHr g_numFrames 0 heapStart

/-! ## CreateCommandAllocator, CreateCommandList, CreateFence,
CreateEventHandle (main.cpp lines 461-508) -/

/-- `CreateCommandAllocator(device, type)` (main.cpp lines 461-467). -/
def CreateCommandAllocator (type : Nat) (createAllocHr : HRESULT) :
    Except HRESULT Unit :=
  match ThrowIfFailed createAllocHr with
  | .error e => .error e
  | .ok _ => .ok ()

/-- `CreateCommandList(device, commandAllocator, type, nodeMask)` (main.cpp
lines 471-482): `CreateCommandList` then `Close`, both wrapped in
`ThrowIfFailed`. -/
def CreateCommandList (nodeMask type : Nat) (createListHr closeHr : HRESULT) :
    Except HRESULT Unit :=
  match ThrowIfFailed createListHr with
  | .error e => .error e
  | .ok _ =>
    match ThrowIfFailed closeHr with
    | .error e => .error e
    | .ok _ => .ok ()

/-- `CreateFence(device, initialValue = 0, flags = D3D12_FENCE_FLAG_NONE)`
(main.cpp lines 491-499): one driver call wrapped in `ThrowIfFailed`; the
fence starts at `initialValue`. -/
def CreateFence (initialValue flags : Nat) (createFenceHr : HRESULT) :
    Except HRESULT Nat :=
  match ThrowIfFailed createFenceHr with
  | .error e => .error e
  | .ok _ => .ok initialValue

/-- The arguments `CreateEventHandle` (main.cpp lines 501-508) passes to
`::CreateEvent(NULL, FALSE, FALSE, NULL)`: no security attributes,
`bManualReset = FALSE`, `bInitialState = FALSE`, no name. -/
structure EventParams where
  manualReset : Bool
  initialState : Bool
deriving DecidableEq, Repr

/-- `CreateEventHandle()` (main.cpp lines 501-508), recorded by the event
parameters it requests: `::CreateEvent(NULL, FALSE, FALSE, NULL)`. -/
def CreateEventHandle : EventParams :=
  { manualReset := false, initialState := false }

/-! ## Signal, WaitForFenceValue, Flush (main.cpp lines 516-558) -/

/-- `uint64_t` wraps modulo `2 ^ 64`. -/
def UINT64_MOD : Nat := 2 ^ 64

/-- `Signal(commandQueue, fence, fenceValue)` (main.cpp lines 516-524):
`fenceValueForSignal = ++fenceValue` (a `uint64_t` pre-increment), then
`ThrowIfFailed(commandQueue->Signal(fence.Get(), fenceValue))`, then
`return fenceValueForSignal`.  The embedding returns the updated shared
counter together with the value returned to the caller. -/
def Signal (fenceValue : Nat) (queueSignalHr : HRESULT) :
    Except HRESULT (Nat × Nat) :=
  let fenceValue' := (fenceValue + 1) % UINT64_MOD
  let fenceValueForSignal := fenceValue'
  match ThrowIfFailed queueSignalHr with
  | .error e => .error e
  | .ok _ => .ok (fenceValue', fenceValueForSignal)

/-- How an execution of `WaitForFenceValue` can end when it does return. -/
inductive WaitOutcome where
  | returnedWithoutWait
  | waited
deriving DecidableEq, Repr

/-- `WaitForFenceValue(fence, fenceValue, fenceEvent, duration)` (main.cpp
lines 531-544).  When `fence->GetCompletedValue() < fenceValue` the source
executes `throw(fence->SetEventOnCompletion(fenceValue, fenceEvent));` —
it throws the `HRESULT` of `SetEventOnCompletion` unconditionally (this is
`throw`, not `ThrowIfFailed`), so the following
`::WaitForSingleObject(fenceEvent, ...)` line is unreachable.  Otherwise
the function returns at once without waiting. -/
def WaitForFenceValue (completedValue fenceValue : Nat)
    (setEventHr : HRESULT) : Except HRESULT WaitOutcome :=
  if completedValue < fenceValue then
    .error setEventHr
  else
    .ok .returnedWithoutWait

/-- `Flush(commandQueue, fence, fenceValue, fenceEvent)` (main.cpp lines
549-558): `Signal`, then `WaitForFenceValue` on the value `Signal`
returned.  `completedValue` is what `fence->GetCompletedValue()` reports
inside the wait. -/
def Flush (fenceValue : Nat) (queueSignalHr : HRESULT)
    (completedValue : Nat) (setEventHr : HRESULT) :
    Except HRESULT (Nat × WaitOutcome) :=
  match Signal fenceValue queueSignalHr with
  | .error e => .error e
  | .ok (fenceValue', fenceValueForSignal) =>
    match WaitForFenceValue completedValue fenceValueForSignal setEventHr with
    | .error e => .error e
    | .ok w => .ok (fenceValue', w)

/-- The shared fence counter after `n` successful `Signal` calls, starting
from the static initial value `0` of `g_fenceValue`. -/
def signalChain : Nat → Nat
  | 0 => 0
  | n + 1 =>
    match Signal (signalChain n) 0 with
    | .ok (v, _) => v
    | .error _ => signalChain n

end DX12

namespace DX12

/-! ## Helper lemmas -/

/-- Case split on an `HRESULT`, providing both the strict and the negated
form of each side for rewriting. -/
theorem hresult_cases (hr : HRESULT) :
    (hr < 0 ∧ ¬ 0 ≤ hr) ∨ (0 ≤ hr ∧ ¬ hr < 0) :=
  (lt_or_le hr 0).imp (fun h => ⟨h, Int.not_le.mpr h⟩) (fun h => ⟨h, Int.not_lt.mpr h⟩)

/-- A loop iteration started on a token that matches none of the three flag
tests leaves the configuration unchanged and consumes no extra token. -/
theorem parseIter_noFlag {args : List String} {i : Nat} (h : i < args.length)
    (hnf : noFlag args[i] = true) (cfg : Config) :
    parseIter args i cfg = some (0, cfg) := by
  have hsplit := hnf
  simp only [noFlag, Bool.and_eq_true, Bool.not_eq_true'] at hsplit
  obtain ⟨⟨hw, hh⟩, hp⟩ := hsplit
  simp [parseIter, List.getElem?_eq_getElem h, hw, hh, hp]

/-- Over an argument vector containing no flag token at all, the parsing
loop terminates normally with the configuration it started from. -/
theorem parseLoop_noFlags {args : List String} (hall : ∀ t ∈ args, noFlag t = true) :
    ∀ (fuel i : Nat) (cfg : Config), parseLoop args fuel i cfg = some cfg := by
  intro fuel
  induction fuel with
  | zero => intro i cfg; rfl
  | succ n ih =>
    intro i cfg
    by_cases h : i < args.length
    · have hnf := hall args[i] (List.getElem_mem h)
      simp [parseLoop, h, parseIter_noFlag h hnf, ih]
    · simp [parseLoop, h]

/-- When the final token is a width or height flag and every earlier token
matches no flag test, the loop reaches the final index, matches the flag,
and evaluates `argv[++i]` out of bounds. -/
theorem parseLoop_oob_last {pre : List String} {f : String}
    (hf : widthFlag f = true ∨ heightFlag f = true)
    (hpre : ∀ t ∈ pre, noFlag t = true) :
    ∀ (fuel i : Nat) (cfg : Config),
      (pre ++ [f]).length - i ≤ fuel → i < (pre ++ [f]).length →
      parseLoop (pre ++ [f]) fuel i cfg = none := by
  intro fuel
  induction fuel with
  | zero =>
    intro i cfg hle hlt
    simp at hlt hle
    omega
  | succ n ih =>
    intro i cfg hle hlt
    have hlen : (pre ++ [f]).length = pre.length + 1 := by simp
    by_cases hi : i = pre.length
    · subst hi
      have hget : (pre ++ [f])[pre.length]? = some f := by
        rw [List.getElem?_append_right (le_refl _)]
        simp
      have hnone : (pre ++ [f])[pre.length + 1]? = none := by
        apply List.getElem?_eq_none
        simp
      by_cases hwf : widthFlag f = true
      · simp [parseLoop, hlt, parseIter, hget, hwf, hnone]
      · have hwf2 : widthFlag f = false := by simpa using hwf
        have hhf : heightFlag f = true := by
          rcases hf with h1 | h1
          · exact absurd h1 hwf
          · exact h1
        simp [parseLoop, hlt, parseIter, hget, hwf2, hhf, hnone]
    · have hipre : i < pre.length := by omega
      have hgeti : (pre ++ [f])[i] = pre[i] := List.getElem_append_left hipre
      have hnf : noFlag ((pre ++ [f])[i]) = true := by
        rw [hgeti]
        exact hpre pre[i] (List.getElem_mem hipre)
      have hstep := parseIter_noFlag hlt hnf cfg
      simp only [parseLoop, hlt, if_pos hlt, hstep]
      have harith : i + 0 + 1 = i + 1 := by omega
      rw [harith]
      exact ih (i + 1) cfg (by omega) (by omega)

/-- When every width/height flag token is followed by a further token, one
loop iteration never reads `argv` out of bounds. -/
theorem parseIter_ne_none {args : List String} {i : Nat} (hi : i < args.length)
    (hP : ∀ (j : Nat) (h : j < args.length),
      (widthFlag args[j] || heightFlag args[j]) = true → j + 1 < args.length)
    (cfg : Config) : parseIter args i cfg ≠ none := by
  by_cases hw : widthFlag args[i] = true
  · have hb1 : i + 1 < args.length := hP i hi (by simp [hw])
    by_cases hh : heightFlag args[i + 1] = true
    · have hb2 : i + 1 + 1 < args.length := hP (i + 1) hb1 (by simp [hh])
      simp [parseIter, List.getElem?_eq_getElem hi, List.getElem?_eq_getElem hb1,
            List.getElem?_eq_getElem hb2, hw, hh]
    · simp [parseIter, List.getElem?_eq_getElem hi, List.getElem?_eq_getElem hb1, hw, hh]
  · by_cases hh : heightFlag args[i] = true
    · have hb1 : i + 1 < args.length := hP i hi (by simp [hh])
      simp [parseIter, List.getElem?_eq_getElem hi, List.getElem?_eq_getElem hb1, hw, hh]
    · simp [parseIter, List.getElem?_eq_getElem hi, hw, hh]

/-- When every width/height flag token is followed by a further token, the
whole parsing loop never reads `argv` out of bounds. -/
theorem parseLoop_inbounds {args : List String}
    (hP : ∀ (j : Nat) (h : j < args.length),
      (widthFlag args[j] || heightFlag args[j]) = true → j + 1 < args.length) :
    ∀ (fuel i : Nat) (cfg : Config), parseLoop args fuel i cfg ≠ none := by
  intro fuel
  induction fuel with
  | zero => intro i cfg; simp [parseLoop]
  | succ n ih =>
    intro i cfg
    by_cases h : i < args.length
    · cases hpi : parseIter args i cfg with
      | none => exact absurd hpi (parseIter_ne_none h hP cfg)
      | some dc =>
        obtain ⟨d, cfg2⟩ := dc
        simp [parseLoop, h, hpi]
        exact ih (i + d + 1) cfg2
    · simp [parseLoop, h]

/-- The fence counter after `n` successful signals is `n` reduced modulo
`2 ^ 64`. -/
theorem signalChain_eq (n : Nat) : signalChain n = n % UINT64_MOD := by
  induction n with
  | zero => simp [signalChain]
  | succ n ih => simp [signalChain, Signal, ThrowIfFailed, ih, Nat.mod_add_mod]

end DX12

namespace DX12

/-! ## Claim theorems -/

/-- C1: the entry point `main` performs no operations — it maps every
global state to itself and returns `0` immediately — and the program's
driver-operation trace is empty, so no render routine (the render routine
is entirely commented out) and no other operation ever executes: running
the program has no observable effect on the process-global handles or
configuration variables. -/
theorem main_is_empty_noop : (∀ s : Globals, main s = (s, 0)) ∧ mainOps = [] :=
  ⟨fun _ => rfl, rfl⟩

/-- C2 counterexample: the claim says the device is created exactly once at
program startup, but the startup trace contains no device creation at all —
`main` is empty, so its creation count for the device is `0`, not `1`. -/
theorem startup_creates_no_device : ¬ mainOps.count DriverObjectKind.device = 1 := by
  decide

/-- C2 (amended): at program startup no driver object of any kind is
created: `main` has an empty body and never invokes the initialization
functions, so the startup creation count of every driver-object kind is
zero and no creation order is observed. -/
theorem startup_creates_nothing : ∀ k : DriverObjectKind, mainOps.count k = 0 :=
  fun _ => rfl

/-- C3 counterexample: the claim says only two flags (and their values) can
change the global configuration, but three pairwise-distinct flag tokens
each change it on their own: `-w`, `-h`, and `-warp` — in particular
`-warp`, which is neither a width nor a height flag, changes the warp
setting. -/
theorem parse_warp_third_flag :
    ParseCommandLineArguments ["-w", "640"] ≠ some initialConfig ∧
    ParseCommandLineArguments ["-h", "720"] ≠ some initialConfig ∧
    ParseCommandLineArguments ["-warp"] ≠ some initialConfig ∧
    ("-w" : String) ≠ "-h" ∧ ("-w" : String) ≠ "-warp" ∧ ("-h" : String) ≠ "-warp" ∧
    widthFlag "-warp" = false ∧ heightFlag "-warp" = false := by
  decide

/-- C3 (amended): `ParseCommandLineArguments` parses exactly three optional
flags — `-w`/`--width`, `-h`/`--height`, and `-warp`/`--warp`: an argument
vector containing none of these flag tokens leaves the global configuration
(client width, client height, warp setting) unchanged, while each of the
three flags changes exactly its own setting. -/
theorem parse_three_flags :
    (∀ args : List String, (∀ t ∈ args, noFlag t = true) →
       ParseCommandLineArguments args = some initialConfig) ∧
    ParseCommandLineArguments ["app", "-w", "640"] =
      some { clientWidth := 640, clientHeight := 1080, useWarp := false } ∧
    ParseCommandLineArguments ["app", "--height", "720"] =
      some { clientWidth := 1280, clientHeight := 720, useWarp := false } ∧
    ParseCommandLineArguments ["app", "-warp"] =
      some { clientWidth := 1280, clientHeight := 1080, useWarp := true } :=
  ⟨fun args h => parseLoop_noFlags h args.length 0 initialConfig,
   by decide, by decide, by decide⟩

/-- C3 witness: the flag-free argument vector `["app", "file.txt"]` leaves
the configuration unchanged. -/
theorem parse_three_flags_witness :
    ParseCommandLineArguments ["app", "file.txt"] = some initialConfig :=
  parse_three_flags.1 ["app", "file.txt"] (by decide)

/-- C4 counterexample: the claim says the fence event is created as a
manual-reset event, but `CreateEventHandle` passes `FALSE` for
`bManualReset` to `::CreateEvent`. -/
theorem fence_event_not_manual_reset : ¬ CreateEventHandle.manualReset = true := by
  decide

/-- C4 (amended): `CreateEventHandle` creates the fence event used for
CPU/GPU synchronization as an auto-reset event (`bManualReset = FALSE`),
initially non-signaled (`bInitialState = FALSE`). -/
theorem fence_event_auto_reset :
    CreateEventHandle.manualReset = false ∧ CreateEventHandle.initialState = false := by
  decide

/-- C5: `WaitForFenceValue` as written never blocks on the fence event.
When the completed value (`0`) is below the target (`1`) it executes
`throw(fence->SetEventOnCompletion(...))`, throwing the `HRESULT` even when
that call succeeds (`S_OK = 0`), so `::WaitForSingleObject` is unreachable
and the function does not return normally; when the completed value has
reached the target (`5 ≥ 5`) it returns at once even if
`SetEventOnCompletion` would have failed, since that call is never made on
this path; consequently `Flush` also throws on its very first wait. -/
theorem waitForFenceValue_throws_despite_success :
    WaitForFenceValue 0 1 0 = Except.error 0 ∧
    WaitForFenceValue 5 5 (-1) = Except.ok WaitOutcome.returnedWithoutWait ∧
    Flush 0 0 0 0 = Except.error 0 :=
  ⟨rfl, rfl, rfl⟩

/-- C6 counterexample: the claim says every `Signal` call increments the
shared fence value by exactly one and the counter strictly increases, but
`g_fenceValue` is a `uint64_t`: at `2 ^ 64 - 1` the pre-increment wraps to
`0`, which is neither the old value plus one nor larger than the old
value. -/
theorem signal_wraps_at_uint64_max :
    Signal 18446744073709551615 0 = Except.ok (0, 0) ∧
    (0 : Nat) ≠ 18446744073709551615 + 1 ∧
    ¬ (18446744073709551615 : Nat) < 0 :=
  ⟨rfl, by decide, by decide⟩

/-- C6 (amended): every successful `Signal` call increments the shared
fence value by exactly one modulo `2 ^ 64` and returns the counter's new
(incremented) value, and across any sequence of fewer than `2 ^ 64`
`Signal` calls starting from the initial value `0` the counter strictly
increases. -/
theorem signal_increments_mod_uint64 :
    (∀ (v : Nat) (hr : HRESULT), 0 ≤ hr →
       Signal v hr = Except.ok ((v + 1) % UINT64_MOD, (v + 1) % UINT64_MOD)) ∧
    (∀ m n : Nat, m < n → n < UINT64_MOD → signalChain m < signalChain n) := by
  constructor
  · intro v hr h
    simp [Signal, ThrowIfFailed, Int.not_lt.mpr h]
  · intro m n hmn hn
    rw [signalChain_eq, signalChain_eq, Nat.mod_eq_of_lt (lt_trans hmn hn),
        Nat.mod_eq_of_lt hn]
    exact hmn

/-- C6 witness: a `Signal` call at fence value `5` yields `6` and returns
`6`, and the counter after one signal is below the counter after two. -/
theorem signal_increments_mod_uint64_witness :
    Signal 5 0 = Except.ok (6, 6) ∧ signalChain 1 < signalChain 2 :=
  ⟨signal_increments_mod_uint64.1 5 0 (by decide),
   signal_increments_mod_uint64.2 1 2 (by decide) (by decide)⟩

/-- C7 counterexample: the claim says every driver call made by the setup
functions aborts the enclosing function on failure, but `GetAdapter`
discards the `HRESULT` of `dxgiAdapter1->GetDesc1(...)`: with the first
enumerated adapter reporting a failing `GetDesc1` (`-1`, a failing result),
`GetAdapter` still returns normally with that adapter selected. -/
theorem getAdapter_ignores_getdesc_failure :
    GetAdapter false 0 0 0
        [{ enumHr := 0, getDescHr := -1,
           desc := { softwareFlag := false, dedicatedVideoMemory := 100 },
           probeHr := 0, asHr := 0 },
         { enumHr := DXGI_ERROR_NOT_FOUND, getDescHr := 0,
           desc := { softwareFlag := false, dedicatedVideoMemory := 0 },
           probeHr := 0, asHr := 0 }] =
      Except.ok (AdapterResult.hardware 0) ∧
    FAILED (-1) = true :=
  ⟨rfl, rfl⟩

/-- C7 (amended): every driver call whose result the setup functions check
with `ThrowIfFailed` aborts the enclosing function on failure and produces
no partial result: `CreateDevice`, `CreateCommandQueue`, `CreateSwapChain`,
`CreateDescriptorHeap`, `UpdateRenderTargetViews`,
`CreateCommandAllocator`, `CreateCommandList`, `CreateFence`, and the warp
path of `GetAdapter` return normally exactly when all their checked driver
calls succeed; `GetAdapter`'s hardware path, however, discards the result
of `GetDesc1` and can return normally despite that call failing. -/
theorem setup_calls_abort_on_failure :
    (∀ hr : HRESULT, (CreateDevice hr).isOk = true ↔ 0 ≤ hr) ∧
    (∀ (ty : Nat) (hr : HRESULT), (CreateCommandQueue ty hr).isOk = true ↔ 0 ≤ hr) ∧
    (∀ (w h b : Nat) (t : TearingInputs) (h1 h2 h3 h4 : HRESULT),
       (CreateSwapChain w h b t h1 h2 h3 h4).isOk = true ↔
         0 ≤ h1 ∧ 0 ≤ h2 ∧ 0 ≤ h3 ∧ 0 ≤ h4) ∧
    (∀ (ty n fl nm : Nat) (hr : HRESULT),
       (CreateDescriptorHeap ty n fl nm hr).isOk = true ↔ 0 ≤ hr) ∧
    (∀ (sz st : Nat) (hr : Nat → HRESULT),
       (UpdateRenderTargetViews sz st hr).isOk = true ↔
         0 ≤ hr 0 ∧ 0 ≤ hr 1 ∧ 0 ≤ hr 2) ∧
    (∀ (ty : Nat) (hr : HRESULT), (CreateCommandAllocator ty hr).isOk = true ↔ 0 ≤ hr) ∧
    (∀ (nm ty : Nat) (h1 h2 : HRESULT),
       (CreateCommandList nm ty h1 h2).isOk = true ↔ 0 ≤ h1 ∧ 0 ≤ h2) ∧
    (∀ (iv fl : Nat) (hr : HRESULT), (CreateFence iv fl hr).isOk = true ↔ 0 ≤ hr) ∧
    (∀ (cf ew wa : HRESULT) (ads : List AdapterIter),
       (GetAdapter true cf ew wa ads).isOk = true ↔ 0 ≤ cf ∧ 0 ≤ ew ∧ 0 ≤ wa) ∧
    GetAdapter false 0 0 0
        [{ enumHr := 0, getDescHr := -7,
           desc := { softwareFlag := true, dedicatedVideoMemory := 0 },
           probeHr := 0, asHr := 0 },
         { enumHr := DXGI_ERROR_NOT_FOUND, getDescHr := 0,
           desc := { softwareFlag := false, dedicatedVideoMemory := 0 },
           probeHr := 0, asHr := 0 }] =
      Except.ok AdapterResult.null := by
  refine ⟨?_, ?_, ?_, ?_, ?_, ?_, ?_, ?_, ?_, rfl⟩
  · intro hr
    rcases hresult_cases hr with ⟨ha, hb⟩ | ⟨ha, hb⟩ <;>
      simp [CreateDevice, ThrowIfFailed, Except.isOk, Except.toBool, ha, hb]
  · intro ty hr
    rcases hresult_cases hr with ⟨ha, hb⟩ | ⟨ha, hb⟩ <;>
      simp [CreateCommandQueue, ThrowIfFailed, Except.isOk, Except.toBool, ha, hb]
  · intro w h b t h1 h2 h3 h4
    rcases hresult_cases h1 with ⟨h1a, h1b⟩ | ⟨h1a, h1b⟩ <;>
    rcases hresult_cases h2 with ⟨h2a, h2b⟩ | ⟨h2a, h2b⟩ <;>
    rcases hresult_cases h3 with ⟨h3a, h3b⟩ | ⟨h3a, h3b⟩ <;>
    rcases hresult_cases h4 with ⟨h4a, h4b⟩ | ⟨h4a, h4b⟩ <;>
      simp [CreateSwapChain, ThrowIfFailed, Except.isOk, Except.toBool,
            h1a, h1b, h2a, h2b, h3a, h3b, h4a, h4b]
  · intro ty n fl nm hr
    rcases hresult_cases hr with ⟨ha, hb⟩ | ⟨ha, hb⟩ <;>
      simp [CreateDescriptorHeap, ThrowIfFailed, Except.isOk, Except.toBool, ha, hb]
  · intro sz st hr
    rcases hresult_cases (hr 0) with ⟨h0a, h0b⟩ | ⟨h0a, h0b⟩ <;>
    rcases hresult_cases (hr 1) with ⟨h1a, h1b⟩ | ⟨h1a, h1b⟩ <;>
    rcases hresult_cases (hr 2) with ⟨h2a, h2b⟩ | ⟨h2a, h2b⟩ <;>
      simp [UpdateRenderTargetViews, g_numFrames, updateRTVLoop, ThrowIfFailed,
            Except.isOk, Except.toBool, h0a, h0b, h1a, h1b, h2a, h2b]
  · intro ty hr
    rcases hresult_cases hr with ⟨ha, hb⟩ | ⟨ha, hb⟩ <;>
      simp [CreateCommandAllocator, ThrowIfFailed, Except.isOk, Except.toBool, ha, hb]
  · intro nm ty h1 h2
    rcases hresult_cases h1 with ⟨h1a, h1b⟩ | ⟨h1a, h1b⟩ <;>
    rcases hresult_cases h2 with ⟨h2a, h2b⟩ | ⟨h2a, h2b⟩ <;>
      simp [CreateCommandList, ThrowIfFailed, Except.isOk, Except.toBool,
            h1a, h1b, h2a, h2b]
  · intro iv fl hr
    rcases hresult_cases hr with ⟨ha, hb⟩ | ⟨ha, hb⟩ <;>
      simp [CreateFence, ThrowIfFailed, Except.isOk, Except.toBool, ha, hb]
  · intro cf ew wa ads
    rcases hresult_cases cf with ⟨h1a, h1b⟩ | ⟨h1a, h1b⟩ <;>
    rcases hresult_cases ew with ⟨h2a, h2b⟩ | ⟨h2a, h2b⟩ <;>
    rcases hresult_cases wa with ⟨h3a, h3b⟩ | ⟨h3a, h3b⟩ <;>
      simp [GetAdapter, ThrowIfFailed, Except.isOk, Except.toBool,
            h1a, h1b, h2a, h2b, h3a, h3b]

/-- C8: the number of swap-chain back buffers is the compile-time constant
`g_numFrames = 3`; the per-frame back-buffer, command-allocator, and
fence-value arrays all have exactly that length; and whenever all
`GetBuffer` calls succeed, `UpdateRenderTargetViews` creates exactly one
render-target view per back buffer — exactly three — at consecutive
descriptor offsets (heap start, start + size, start + 2·size). -/
theorem three_frames_three_rtvs (descriptorSize heapStart : Nat)
    (getBufferHr : Nat → HRESULT) (h : ∀ i, 0 ≤ getBufferHr i) :
    g_numFrames = 3 ∧
    initGlobals.backBuffers.length = g_numFrames ∧
    initGlobals.commandAllocators.length = g_numFrames ∧
    initGlobals.frameFenceValues.length = g_numFrames ∧
    UpdateRenderTargetViews descriptorSize heapStart getBufferHr =
      Except.ok [⟨0, heapStart⟩, ⟨1, heapStart + descriptorSize⟩,
                 ⟨2, heapStart + descriptorSize + descriptorSize⟩] := by
  refine ⟨rfl, rfl, rfl, rfl, ?_⟩
  simp [UpdateRenderTargetViews, g_numFrames, updateRTVLoop, ThrowIfFailed,
        Int.not_lt.mpr (h 0), Int.not_lt.mpr (h 1), Int.not_lt.mpr (h 2)]

/-- C8 witness: with descriptor size `4` and heap start `100`, and all
`GetBuffer` calls succeeding, exactly three render-target views are created
at offsets `100`, `104`, `108`. -/
theorem three_frames_three_rtvs_witness :
    g_numFrames = 3 ∧
    initGlobals.backBuffers.length = g_numFrames ∧
    initGlobals.commandAllocators.length = g_numFrames ∧
    initGlobals.frameFenceValues.length = g_numFrames ∧
    UpdateRenderTargetViews 4 100 (fun _ => 0) =
      Except.ok [⟨0, 100⟩, ⟨1, 104⟩, ⟨2, 108⟩] :=
  three_frames_three_rtvs 4 100 (fun _ => 0) (fun _ => le_refl 0)

/-- C9 counterexample: the claim says every argument vector whose final
token is a width flag makes the parser read one past the end, but in
`["-w", "-w"]` the final `-w` — a width flag as a token — is consumed as the
value of the preceding width flag, and parsing completes without any
out-of-bounds read. -/
theorem trailing_width_flag_no_oob :
    widthFlag "-w" = true ∧
    ["-w", "-w"].getLast? = some "-w" ∧
    ParseCommandLineArguments ["-w", "-w"] ≠ none ∧
    ParseCommandLineArguments ["-w", "-w"] =
      some { clientWidth := 0, clientHeight := 1080, useWarp := false } := by
  decide

/-- C9 (amended): if the final token of the argument vector is a width or
height flag and no earlier token matches any flag test (so the final flag
is examined as a flag, not consumed as a value), `ParseCommandLineArguments`
reads the element one past the end of the argument array; and in-bounds
access is guaranteed whenever every width/height flag token is followed by
a further argument. -/
theorem parse_oob_characterization :
    (∀ (pre : List String) (f : String),
       (widthFlag f = true ∨ heightFlag f = true) →
       (∀ t ∈ pre, noFlag t = true) →
       ParseCommandLineArguments (pre ++ [f]) = none) ∧
    (∀ args : List String,
       (∀ (j : Nat) (h : j < args.length),
          (widthFlag args[j] || heightFlag args[j]) = true → j + 1 < args.length) →
       ParseCommandLineArguments args ≠ none) := by
  constructor
  · intro pre f hf hpre
    unfold ParseCommandLineArguments
    exact parseLoop_oob_last hf hpre _ 0 initialConfig (by omega) (by simp)
  · intro args hP
    exact parseLoop_inbounds hP _ 0 initialConfig

/-- C9 witness: a lone trailing `-w` makes the parser read out of bounds,
while `["-w", "5"]`, where the flag is followed by a value, parses without
any out-of-bounds read. -/
theorem parse_oob_characterization_witness :
    ParseCommandLineArguments ["-w"] = none ∧
    ParseCommandLineArguments ["-w", "5"] ≠ none := by
  constructor
  · have h := parse_oob_characterization.1 [] "-w" (Or.inl rfl) (by simp)
    simpa using h
  · exact parse_oob_characterization.2 ["-w", "5"] (by decide)

/-- C10: `CheckTearingSupport` is total and never propagates an error — it
returns `true` exactly when the factory creation, the factory-5 conversion,
and the tearing feature-support query all succeed and the query reports
tearing allowed, and `false` on any failure along the way; and
`CreateSwapChain`'s descriptor carries the allow-tearing flag exactly when
`CheckTearingSupport` returns `true`. -/
theorem tearing_support_iff :
    (∀ t : TearingInputs,
       CheckTearingSupport t = true ↔
         0 ≤ t.createFactory1Hr ∧ 0 ≤ t.asFactory5Hr ∧ 0 ≤ t.checkFeatureHr ∧
           t.allowTearingValue = true) ∧
    (∀ (w h b : Nat) (t : TearingInputs),
       (swapChainDescFor w h b t).flags = DXGI_SWAP_CHAIN_FLAG_ALLOW_TEARING ↔
         CheckTearingSupport t = true) := by
  constructor
  · intro t
    rcases hresult_cases t.createFactory1Hr with ⟨h1a, h1b⟩ | ⟨h1a, h1b⟩ <;>
    rcases hresult_cases t.asFactory5Hr with ⟨h2a, h2b⟩ | ⟨h2a, h2b⟩ <;>
    rcases hresult_cases t.checkFeatureHr with ⟨h3a, h3b⟩ | ⟨h3a, h3b⟩ <;>
      simp [CheckTearingSupport, h1a, h1b, h2a, h2b, h3a, h3b]
  · intro w h b t
    simp only [swapChainDescFor]
    split_ifs with hc <;> simp [hc, DXGI_SWAP_CHAIN_FLAG_ALLOW_TEARING]

end DX12
